import Mathlib

/-!
Shallow embedding of the Moderation-ai core moderation engine
(`src/core/standards.py` and `src/core/metrics.py`).

Modelling conventions:
* Python `float` is modelled by `ℚ` (the numeric claims under study are
  robust statements about the arithmetic, not about IEEE rounding).
* Python `dict[str, T]` is modelled by an insertion-ordered association list
  `List (String × T)`; indexing is `dictGet` (first hit wins, mirroring the
  unique-key invariant of a Python dict).
* The ambient Python runtime services used by the engine -- the `re` module
  and float formatting -- are modelled by a `PyRuntime` parameter.
  `findall pat text` returns the list of match strings of
  `re.compile(pat, re.IGNORECASE).findall(text)`, or `.error msg` when
  compilation or matching raises. General theorems are proved for every
  runtime; concrete witnesses supply a concrete runtime whose table is the
  hand-checked behaviour of Python `re` on the inputs in question.
* `str.lower()` is modelled characterwise by `Char.toLower` (the texts in
  play are ASCII) and `len(text.split())` by `wordCount`.
* Exceptions are modelled by `Except`; methods that mutate `self` and
  return a value are modelled as functions returning the value paired with
  the updated state.
-/

namespace Moderation

/-- Ambient Python runtime services: `re` pattern matching and float
formatting (`"%.2f"`-style and `str()`), used only inside reasoning
strings. -/
structure PyRuntime where
  findall : String → String → Except String (List String)
  fmt2 : ℚ → String
  strFloat : ℚ → String

/-- Model of Python `str.lower()` (characterwise ASCII lowering). -/
def strLower (s : String) : String :=
  String.mk (s.data.map Char.toLower)

/-- Helper for `wordCount`: counts maximal non-whitespace runs; the Boolean
records whether the scan is currently inside a word. -/
def countWordsAux : List Char → Bool → Nat
  | [], _ => 0
  | c :: cs, inWord =>
    if c.isWhitespace then countWordsAux cs false
    else (if inWord then 0 else 1) + countWordsAux cs true

/-- Model of Python `len(text.split())`: number of whitespace-separated
words. -/
def wordCount (s : String) : Nat :=
  countWordsAux s.data false

/-- Python dict indexing `d[k]` / `k in d` on the association-list model:
value of the first entry with the given key. -/
def dictGet {α : Type} : List (String × α) → String → Option α
  | [], _ => none
  | p :: rest, k => if p.1 = k then some p.2 else dictGet rest k

/-- Python dict assignment `d[k] = v`: replace in place when the key
exists, append otherwise. -/
def dictInsert {α : Type} (l : List (String × α)) (k : String) (v : α) :
    List (String × α) :=
  if (dictGet l k).isSome then
    l.map (fun p => if p.1 = k then (k, v) else p)
  else l ++ [(k, v)]

/-- Python dict deletion `del d[k]` (key assumed present): drop the first
entry with the given key. -/
def dicterase {α : Type} : List (String × α) → String → List (String × α)
  | [], _ => []
  | p :: rest, k => if p.1 = k then rest else p :: dicterase rest k

/-- `Severity` enum of `src/core/base.py`. -/
inductive Severity
  | low
  | medium
  | high
  | critical
deriving DecidableEq

/-- `ModerationAction` enum of `src/core/base.py`. -/
inductive ModerationAction
  | approve
  | flag
  | hide
  | remove
deriving DecidableEq

/-- `Comment` dataclass of `src/core/base.py`. The engine reads only
`text`; `created_at` (wall-clock) and the free-form `metadata` dict are
omitted from the model. -/
structure Comment where
  id : String
  text : String
  author_id : String
  author_name : String
  platform : String
  post_id : String
  likes : Int
  replies_count : Int
deriving DecidableEq

/-- `Standard` dataclass of `src/core/standards.py` (the free-form
`metadata` dict is omitted). -/
structure Standard where
  name : String
  description : String
  metrics : List String
  enabled : Bool
  weight : ℚ
  severity_threshold : ℚ
deriving DecidableEq

/-- `Metric` dataclass of `src/core/standards.py` (the free-form
`metadata` dict is omitted). -/
structure Metric where
  name : String
  description : String
  check_pattern : String
  severity : Severity
  threshold : ℚ
  enabled : Bool
deriving DecidableEq

/-- `Violation` dataclass of `src/core/base.py`. -/
structure Violation where
  standard : String
  description : String
  severity : Severity
  confidence : ℚ
  violated_metrics : List String
  reasoning : String
  position : Option Int
deriving DecidableEq

/-- `ModerationResult` dataclass of `src/core/base.py`; the `timestamp`
(wall-clock) and free-form `metadata` fields are omitted. -/
structure ModerationResult where
  comment : Comment
  action : ModerationAction
  violations : List Violation
  score : ℚ
  confidence : ℚ
  reasoning : String

/-- State of a `StandardsEngine` instance: its two registries and the two
construction parameters (the `_cache` dict is written but never read by the
source and is omitted). -/
structure StandardsEngine where
  standards : List (String × Standard)
  metrics : List (String × Metric)
  threshold : ℚ
  auto_moderate : Bool

namespace StandardsEngine

/-- `StandardsEngine.DEFAULT_STANDARDS` of `src/core/standards.py`. -/
def DEFAULT_STANDARDS : List (String × Standard) :=
  [ ("safety",
     { name := "safety"
       description := "Protect users from harmful, dangerous, or illegal content"
       metrics := ["profanity", "threats", "self_harm", "illegal_content"]
       enabled := true
       weight := 1.5
       severity_threshold := 0.6 }),
    ("quality",
     { name := "quality"
       description := "Maintain high-quality, constructive discussion"
       metrics := ["length", "substance", "relevance", "coherence"]
       enabled := true
       weight := 1.0
       severity_threshold := 0.7 }),
    ("spam",
     { name := "spam"
       description := "Prevent spam and promotional content"
       metrics := ["repetition", "links", "keywords", "patterns"]
       enabled := true
       weight := 1.2
       severity_threshold := 0.6 }),
    ("policy",
     { name := "policy"
       description := "Enforce platform-specific policies"
       metrics := ["harassment", "hate_speech", "misinformation", "violence"]
       enabled := true
       weight := 1.5
       severity_threshold := 0.5 }),
    ("engagement",
     { name := "engagement"
       description := "Encourage meaningful engagement"
       metrics := ["tone", "constructiveness", "civility", "helpfulness"]
       enabled := true
       weight := 0.8
       severity_threshold := 0.7 }) ]

/-- `StandardsEngine.DEFAULT_METRICS` of `src/core/standards.py`. Regex
braces are written with the escapes `\x7b` / `\x7d`. -/
def DEFAULT_METRICS : List (String × Metric) :=
  [ ("profanity",
     { name := "profanity"
       description := "Detect profane language"
       check_pattern := "\\b(?:shit|fuck|damn|ass|bitch|crap|bastard|idiot|stupid)\\b"
       severity := Severity.medium
       threshold := 0.7
       enabled := true }),
    ("threats",
     { name := "threats"
       description := "Detect threatening language"
       check_pattern := "(?:kill|destroy|hurt|harm|attack|assault|murder|rape)"
       severity := Severity.critical
       threshold := 0.5
       enabled := true }),
    ("self_harm",
     { name := "self_harm"
       description := "Detect self-harm language"
       check_pattern := "(?:suicide|kill myself|end it|hurt myself)"
       severity := Severity.critical
       threshold := 0.5
       enabled := true }),
    ("illegal_content",
     { name := "illegal_content"
       description := "Detect illegal content references"
       check_pattern := "(?:drugs|weapons|piracy|illegal|black market)"
       severity := Severity.high
       threshold := 0.7
       enabled := true }),
    ("length",
     { name := "length"
       description := "Check if comment is too short"
       check_pattern := "^.+$"
       severity := Severity.low
       threshold := 0.6
       enabled := true }),
    ("substance",
     { name := "substance"
       description := "Check if comment has meaningful content"
       check_pattern := "(?:agree|disagree|good|bad|nice|cool|awesome|great)"
       severity := Severity.low
       threshold := 0.8
       enabled := true }),
    ("relevance",
     { name := "relevance"
       description := "Check comment relevance to post"
       check_pattern := ".+"
       severity := Severity.medium
       threshold := 0.7
       enabled := true }),
    ("coherence",
     { name := "coherence"
       description := "Check if comment is coherent"
       check_pattern := ".+"
       severity := Severity.medium
       threshold := 0.7
       enabled := true }),
    ("repetition",
     { name := "repetition"
       description := "Detect repetitive content"
       check_pattern := "(.)\\1\x7b3,\x7d"
       severity := Severity.medium
       threshold := 0.7
       enabled := true }),
    ("links",
     { name := "links"
       description := "Detect promotional links"
       check_pattern := "https?://\\S+"
       severity := Severity.medium
       threshold := 0.8
       enabled := true }),
    ("keywords",
     { name := "keywords"
       description := "Detect spam keywords"
       check_pattern := "(?:subscribe|follow|like|check this|visit my)"
       severity := Severity.medium
       threshold := 0.7
       enabled := true }),
    ("patterns",
     { name := "patterns"
       description := "Detect spam patterns"
       check_pattern := "(?:\\d\x7b3,\x7d|\\$[0-9,]+|free.*money)"
       severity := Severity.medium
       threshold := 0.7
       enabled := true }),
    ("harassment",
     { name := "harassment"
       description := "Detect harassment"
       check_pattern := "(?:stupid|idiot|loser|pathetic|shut up|you\x27re awful)"
       severity := Severity.high
       threshold := 0.6
       enabled := true }),
    ("hate_speech",
     { name := "hate_speech"
       description := "Detect hate speech"
       check_pattern := "(?:hate|discriminate|racist|sexist|homophobic)"
       severity := Severity.critical
       threshold := 0.5
       enabled := true }),
    ("misinformation",
     { name := "misinformation"
       description := "Detect potential misinformation"
       check_pattern := "(?:fake news|conspiracy|false|not true)"
       severity := Severity.high
       threshold := 0.7
       enabled := true }),
    ("violence",
     { name := "violence"
       description := "Detect violent language"
       check_pattern := "(?:beat|punch|kick|hit|violent|bloody|kill)"
       severity := Severity.high
       threshold := 0.6
       enabled := true }),
    ("tone",
     { name := "tone"
       description := "Assess comment tone"
       check_pattern := ".+"
       severity := Severity.low
       threshold := 0.7
       enabled := true }),
    ("constructiveness",
     { name := "constructiveness"
       description := "Check if comment is constructive"
       check_pattern := "(?:improve|suggest|recommend|maybe|could|should)"
       severity := Severity.low
       threshold := 0.7
       enabled := true }),
    ("civility",
     { name := "civility"
       description := "Check comment civility"
       check_pattern := ".+"
       severity := Severity.medium
       threshold := 0.7
       enabled := true }),
    ("helpfulness",
     { name := "helpfulness"
       description := "Check if comment is helpful"
       check_pattern := "(?:help|useful|thanks|thank|appreciate)"
       severity := Severity.low
       threshold := 0.7
       enabled := true }) ]

/-- `StandardsEngine.__init__`: `self.standards = standards or
DEFAULT_STANDARDS.copy()` and likewise for metrics -- a Python `or`, so both
`None` and an explicitly empty dict fall back to the defaults. -/
def mk' (standards : Option (List (String × Standard)))
    (metrics : Option (List (String × Metric)))
    (threshold : ℚ) (auto_moderate : Bool) : StandardsEngine :=
  { standards :=
      match standards with
      | none => DEFAULT_STANDARDS
      | some l => if l.isEmpty then DEFAULT_STANDARDS else l
    metrics :=
      match metrics with
      | none => DEFAULT_METRICS
      | some l => if l.isEmpty then DEFAULT_METRICS else l
    threshold := threshold
    auto_moderate := auto_moderate }

/-- `StandardsEngine._check_metric`: lowercase the text, run the pattern,
and score `len(matches) / max(1, len(text.split()))` (note: no cap at 1.0);
any exception degrades to a pass with score 0. -/
def checkMetric (rt : PyRuntime) (c : Comment) (m : Metric) :
    Bool × ℚ × String :=
  let text := strLower c.text
  match rt.findall m.check_pattern text with
  | Except.error _ => (true, 0, "Error checking " ++ m.name)
  | Except.ok found =>
    if found.isEmpty then
      (true, 0, "No matches found for " ++ m.name)
    else
      let score : ℚ := (found.length : ℚ) / (max 1 (wordCount text) : ℚ)
      let passed : Bool := if score < m.threshold then true else false
      (passed, score,
        "Found " ++ toString found.length ++ " matches for " ++ m.name
          ++ " pattern")

/-- The `violated_metrics` list accumulated by the loop of
`StandardsEngine._check_standard`: referenced metric names that are
registered, enabled and fail their check. -/
def violatedMetricNames (rt : PyRuntime) (ms : List (String × Metric))
    (c : Comment) (st : Standard) : List String :=
  st.metrics.filter (fun mn =>
    match dictGet ms mn with
    | none => false
    | some m => m.enabled && !(checkMetric rt c m).1)

/-- `StandardsEngine._determine_severity` (the `standard` argument is
unused by the source as well). -/
def determineSeverity (confidence : ℚ) (_standard : Standard) : Severity :=
  if confidence ≥ 0.9 then Severity.critical
  else if confidence ≥ 0.7 then Severity.high
  else if confidence ≥ 0.5 then Severity.medium
  else Severity.low

/-- The thresholds collected by `max(self.metrics[m].threshold for m in
violated_metrics if m in self.metrics)`. -/
def thresholdsOf (ms : List (String × Metric)) (names : List String) :
    List ℚ :=
  names.filterMap (fun mn => (dictGet ms mn).map (fun m => m.threshold))

/-- `StandardsEngine._check_standard`: at most one `Violation`, synthesized
when some referenced metric fails; its confidence is the maximum threshold
among the violated metrics. The `[]` branch of the inner match also covers
the vacuous case of a non-empty violated list none of whose members is
registered, which cannot arise (every violated name was looked up in the
registry). -/
def checkStandard (rt : PyRuntime) (ms : List (String × Metric))
    (c : Comment) (st : Standard) : List Violation :=
  let violated := violatedMetricNames rt ms c st
  match thresholdsOf ms violated with
  | [] => []
  | t :: ts =>
    let confidence := ts.foldl max t
    [ { standard := st.name
        description := st.description
        severity := determineSeverity confidence st
        confidence := confidence
        violated_metrics := violated
        reasoning := "Comment violates " ++ st.name
          ++ " standard based on metrics: " ++ String.intercalate ", " violated
        position := none } ]

/-- `max(v.confidence for v in standard_violations)` over a non-empty
violation list. -/
def maxConfidence (v : Violation) (vs : List Violation) : ℚ :=
  vs.foldl (fun a x => max a x.confidence) v.confidence

/-- The accumulation loop of `StandardsEngine.moderate`, tail-first:
returns (violations in iteration order, total_score, total_weight).
Addition of rationals is associative and commutative, so accumulating the
tail first computes the same totals as the source loop. -/
def moderateAccum (rt : PyRuntime) (ms : List (String × Metric))
    (c : Comment) : List (String × Standard) → List Violation × ℚ × ℚ
  | [] => ([], 0, 0)
  | (_, st) :: rest =>
    let tail := moderateAccum rt ms c rest
    if st.enabled = false then tail
    else
      match checkStandard rt ms c st with
      | [] => (tail.1, tail.2.1, tail.2.2 + st.weight)
      | v :: vs =>
        ((v :: vs) ++ tail.1,
         tail.2.1 + maxConfidence v vs * st.weight,
         tail.2.2 + st.weight)

/-- `StandardsEngine._determine_action`: first matching rule wins. -/
def determineAction (e : StandardsEngine) (score : ℚ)
    (violations : List Violation) : ModerationAction :=
  if violations.isEmpty then ModerationAction.approve
  else if violations.any (fun v => decide (v.severity = Severity.critical)) then
    ModerationAction.remove
  else if violations.any (fun v => decide (v.severity = Severity.high)) then
    ModerationAction.remove
  else if score ≥ e.threshold ∧ e.auto_moderate = true then
    ModerationAction.hide
  else ModerationAction.flag

/-- `StandardsEngine._calculate_confidence` (the `score` argument is unused
by the source as well). -/
def calculateConfidence (_score : ℚ) (violations : List Violation) : ℚ :=
  match violations with
  | [] => 1
  | v :: vs =>
    let maxSeverityConfidence := maxConfidence v vs
    let violationCountFactor := min (((v :: vs).length : ℚ) / 5) 1
    (maxSeverityConfidence + violationCountFactor) / 2

/-- `StandardsEngine._generate_reasoning`. -/
def generateReasoning (rt : PyRuntime) (e : StandardsEngine)
    (violations : List Violation) (score : ℚ) : String :=
  match violations with
  | [] => "Comment passes all standards. No violations detected."
  | _ =>
    let reasons :=
      ("Found " ++ toString violations.length ++ " violation(s):")
        :: violations.map (fun v => "  - " ++ v.standard ++ ": " ++ v.reasoning)
    let reasons := reasons ++
      ["Overall score: " ++ rt.fmt2 score ++ " (threshold: "
        ++ rt.strFloat e.threshold ++ ")"]
    String.intercalate "\n" reasons

/-- `StandardsEngine.moderate`. -/
def moderate (rt : PyRuntime) (e : StandardsEngine) (c : Comment) :
    ModerationResult :=
  let acc := moderateAccum rt e.metrics c e.standards
  let finalScore := if 0 < acc.2.2 then acc.2.1 / acc.2.2 else 0
  { comment := c
    action := determineAction e finalScore acc.1
    violations := acc.1
    score := finalScore
    confidence := calculateConfidence finalScore acc.1
    reasoning := generateReasoning rt e acc.1 finalScore }

/-- `StandardsEngine.moderate_batch`: independent per-item application. -/
def moderateBatch (rt : PyRuntime) (e : StandardsEngine)
    (cs : List Comment) : List ModerationResult :=
  cs.map (moderate rt e)

/-- `StandardsEngine.add_standard`. -/
def addStandard (e : StandardsEngine) (st : Standard) : StandardsEngine :=
  { e with standards := dictInsert e.standards st.name st }

/-- `StandardsEngine.remove_standard`: returns the Boolean result paired
with the updated engine state. -/
def removeStandard (e : StandardsEngine) (name : String) :
    Bool × StandardsEngine :=
  if (dictGet e.standards name).isSome then
    (true, { e with standards := dicterase e.standards name })
  else (false, e)

/-- `StandardsEngine.add_metric`. -/
def addMetric (e : StandardsEngine) (m : Metric) : StandardsEngine :=
  { e with metrics := dictInsert e.metrics m.name m }

/-- `StandardsEngine.remove_metric`. -/
def removeMetric (e : StandardsEngine) (name : String) :
    Bool × StandardsEngine :=
  if (dictGet e.metrics name).isSome then
    (true, { e with metrics := dicterase e.metrics name })
  else (false, e)

/-- `StandardsEngine.enable_standard`. -/
def enableStandard (e : StandardsEngine) (name : String) :
    Bool × StandardsEngine :=
  if (dictGet e.standards name).isSome then
    (true, { e with standards := e.standards.map (fun p =>
        if p.1 = name then (p.1, { p.2 with enabled := true }) else p) })
  else (false, e)

/-- `StandardsEngine.disable_standard`. -/
def disableStandard (e : StandardsEngine) (name : String) :
    Bool × StandardsEngine :=
  if (dictGet e.standards name).isSome then
    (true, { e with standards := e.standards.map (fun p =>
        if p.1 = name then (p.1, { p.2 with enabled := false }) else p) })
  else (false, e)

end StandardsEngine

/-- State of a `MetricsValidator` instance (`src/core/metrics.py`): its
metric registry and the custom-validator strategy map. -/
structure MetricsValidator where
  metrics : List (String × Metric)
  customValidators : List (String × (Comment → Metric → Bool × ℚ × String))

namespace MetricsValidator

/-- `MetricsValidator.__init__`: `self.metrics = metrics or {}`. -/
def mk' (metrics : Option (List (String × Metric))) : MetricsValidator :=
  { metrics :=
      match metrics with
      | none => []
      | some l => if l.isEmpty then [] else l
    customValidators := [] }

/-- `MetricsValidator._calculate_score`: match density capped at 1.0, and
1.0 outright when the text has no words. -/
def calculateScore (found : List String) (text : String) : ℚ :=
  if found.isEmpty then 0
  else
    let word_count := wordCount text
    let match_count := found.length
    if 0 < word_count then min ((match_count : ℚ) / (word_count : ℚ)) 1
    else 1

/-- `MetricsValidator._generate_reasoning`. -/
def generateReasoning (rt : PyRuntime) (found : List String) (m : Metric)
    (score : ℚ) : String :=
  if found.isEmpty then "No violations found for \x27" ++ m.name ++ "\x27"
  else
    let matchText :=
      String.intercalate ", " ((found.take 3).map (fun s => s.take 20))
    let matchText :=
      if 3 < found.length then
        matchText ++ " and " ++ toString (found.length - 3) ++ " more"
      else matchText
    "Found " ++ toString found.length ++ " violation(s) for \x27" ++ m.name
      ++ "\x27: " ++ matchText ++ ". Score: " ++ rt.fmt2 score
      ++ " (threshold: " ++ rt.strFloat m.threshold ++ ")"

/-- `MetricsValidator._default_validate`: default pattern-based validation;
any exception degrades to a pass with score 0 and a diagnostic message. -/
def defaultValidate (rt : PyRuntime) (c : Comment) (m : Metric) :
    Bool × ℚ × String :=
  let text := strLower c.text
  match rt.findall m.check_pattern text with
  | Except.error e =>
    (true, 0, "Error validating \x27" ++ m.name ++ "\x27: " ++ e)
  | Except.ok found =>
    if found.isEmpty then
      (true, 0, "No violations found for \x27" ++ m.name ++ "\x27")
    else
      let score := calculateScore found text
      let passed : Bool := if score < m.threshold then true else false
      (passed, score, generateReasoning rt found m score)

/-- `MetricsValidator.validate`: missing metric passes with a diagnostic;
a registered custom validator is consulted before the default logic. -/
def validate (rt : PyRuntime) (v : MetricsValidator) (c : Comment)
    (metric : String) : Bool × ℚ × String :=
  match dictGet v.metrics metric with
  | none => (true, 0, "Metric \x27" ++ metric ++ "\x27 not found")
  | some mObj =>
    match dictGet v.customValidators metric with
    | some f => f c mObj
    | none => defaultValidate rt c mObj

/-- `MetricsValidator.validate_all`. -/
def validateAll (rt : PyRuntime) (v : MetricsValidator) (c : Comment)
    (metricNames : List String) : List (String × (Bool × ℚ × String)) :=
  metricNames.map (fun mn => (mn, validate rt v c mn))

/-- `MetricsValidator.add_custom_validator`. -/
def addCustomValidator (v : MetricsValidator) (metricName : String)
    (f : Comment → Metric → Bool × ℚ × String) : MetricsValidator :=
  { v with customValidators := dictInsert v.customValidators metricName f }

/-- `MetricsValidator.add_metric`. -/
def addMetric (v : MetricsValidator) (m : Metric) : MetricsValidator :=
  { v with metrics := dictInsert v.metrics m.name m }

/-- `MetricsValidator.remove_metric`. -/
def removeMetric (v : MetricsValidator) (metricName : String) :
    Bool × MetricsValidator :=
  if (dictGet v.metrics metricName).isSome then
    (true, { v with metrics := dicterase v.metrics metricName })
  else (false, v)

end MetricsValidator

/-!
Spec-side definitions, written from the wording of the specification, to be
compared with the source-translated functions above.
-/

/-- The severity bands exactly as worded in the spec (section 4.2): below
0.5 is LOW, `[0.5, 0.7)` is MEDIUM, `[0.7, 0.9)` is HIGH, at or above 0.9
is CRITICAL. -/
def specSeverityBands (confidence : ℚ) : Severity :=
  if confidence < 0.5 then Severity.low
  else if confidence < 0.7 then Severity.medium
  else if confidence < 0.9 then Severity.high
  else Severity.critical

/-- The action-selection order exactly as worded in the spec (section 4.2,
step 4): first matching rule wins. -/
def specActionOrder (threshold : ℚ) (auto : Bool) (score : ℚ)
    (violations : List Violation) : ModerationAction :=
  if violations = [] then ModerationAction.approve
  else if ∃ v ∈ violations, v.severity = Severity.critical then
    ModerationAction.remove
  else if ∃ v ∈ violations, v.severity = Severity.high then
    ModerationAction.remove
  else if score ≥ threshold ∧ auto = true then ModerationAction.hide
  else ModerationAction.flag

/-- The per-standard violation shape asserted by the spec: among the
violations reported by `moderate` exactly one belongs to the standard; its
violated-metric list is the list collected by the engine loop, its
confidence is a member of, and an upper bound of, the thresholds of those
violated metrics (i.e. their maximum), and its severity follows the fixed
confidence bands. -/
def uniqueViolationSpec (rt : PyRuntime) (e : StandardsEngine) (c : Comment)
    (s : Standard) : Prop :=
  ∃ v : Violation,
    (StandardsEngine.moderate rt e c).violations.filter
        (fun x => decide (x.standard = s.name)) = [v] ∧
    v.violated_metrics = StandardsEngine.violatedMetricNames rt e.metrics c s ∧
    v.confidence ∈ StandardsEngine.thresholdsOf e.metrics v.violated_metrics ∧
    (∀ t ∈ StandardsEngine.thresholdsOf e.metrics v.violated_metrics,
      t ≤ v.confidence) ∧
    v.severity = specSeverityBands v.confidence

/-!
Concrete data used by witnesses and counterexamples.
-/

/-- Stub formatting component for concrete runtimes; no claim under study
inspects a formatted float. -/
def noFmt : ℚ → String := fun _ => ""

/-- Concrete runtime tabulating
`re.compile(pat, re.IGNORECASE).findall(text)` for three literal patterns,
hand-checked against Python `re`:
`findall("kill", "kill") = ["kill"]`, `findall("zzz", "hello") = []`,
`findall("a", "aaaa") = ["a", "a", "a", "a"]`. Other inputs are reported
as a runtime error. -/
def rtLit : PyRuntime :=
  { findall := fun pat text =>
      if pat = "kill" ∧ text = "kill" then Except.ok ["kill"]
      else if pat = "zzz" ∧ text = "hello" then Except.ok []
      else if pat = "a" ∧ text = "aaaa" then Except.ok ["a", "a", "a", "a"]
      else Except.error "input not modelled"
    fmt2 := noFmt
    strFloat := noFmt }

/-- Runtime in which every pattern evaluation raises (models, e.g., a
malformed regular expression). -/
def rtErr : PyRuntime :=
  { findall := fun _ _ => Except.error "boom"
    fmt2 := noFmt
    strFloat := noFmt }

/-- Table of `re.compile(p, re.IGNORECASE).findall("kill")` for the default
metric patterns that match the text `"kill"`, hand-checked against Python
`re`: the threats pattern, `^.+$`, `.+` and the violence pattern match once
each; every other pattern of the default catalog has no match in
`"kill"`. -/
def killMatches : List (String × List String) :=
  [ ("(?:kill|destroy|hurt|harm|attack|assault|murder|rape)", ["kill"]),
    ("^.+$", ["kill"]),
    (".+", ["kill"]),
    ("(?:beat|punch|kick|hit|violent|bloody|kill)", ["kill"]) ]

/-- Concrete runtime for moderating the text `"kill"` against the default
catalog: patterns found in `killMatches` return their match list, the
remaining patterns return no match. -/
def rtKill : PyRuntime :=
  { findall := fun pat text =>
      if text = "kill" then Except.ok ((dictGet killMatches pat).getD [])
      else Except.error "input not modelled"
    fmt2 := noFmt
    strFloat := noFmt }

/-- Sample comment with the given text, used by concrete witnesses. -/
def mkComment (text : String) : Comment :=
  { id := "1", text := text, author_id := "u1", author_name := "user"
    platform := "test", post_id := "p1", likes := 0, replies_count := 0 }

/-- A CRITICAL-severity metric whose pattern is the literal `kill`, with
threshold 0.5. -/
def mKill : Metric :=
  { name := "m"
    description := "critical demo metric"
    check_pattern := "kill"
    severity := Severity.critical
    threshold := 0.5
    enabled := true }

/-- A standard referencing only the metric name `m`. -/
def sDemo : Standard :=
  { name := "s"
    description := "demo standard"
    metrics := ["m"]
    enabled := true
    weight := 1
    severity_threshold := 0.7 }

/-- Engine with the single standard `sDemo` and the single metric
`mKill`. -/
def eDemo : StandardsEngine :=
  { standards := [("s", sDemo)]
    metrics := [("m", mKill)]
    threshold := 0.7
    auto_moderate := false }

/-- Like `mKill` but with threshold 0.7 (used for the amended C1). -/
def mKill7 : Metric :=
  { name := "m"
    description := "high-threshold demo metric"
    check_pattern := "kill"
    severity := Severity.low
    threshold := 0.7
    enabled := true }

/-- Engine with the single standard `sDemo` and the single metric
`mKill7`. -/
def eDemo7 : StandardsEngine :=
  { standards := [("s", sDemo)]
    metrics := [("m", mKill7)]
    threshold := 0.7
    auto_moderate := false }

/-- The `always_fail` metric of the C3 scenario: its own pattern (`zzz`)
never matches the sample text. -/
def mAlwaysFail : Metric :=
  { name := "always_fail"
    description := "metric with a custom evaluator"
    check_pattern := "zzz"
    severity := Severity.medium
    threshold := 0.6
    enabled := true }

/-- A standard referencing only `always_fail`. -/
def sAlwaysFail : Standard :=
  { name := "s"
    description := "standard referencing always_fail"
    metrics := ["always_fail"]
    enabled := true
    weight := 1
    severity_threshold := 0.7 }

/-- Engine whose single standard references the `always_fail` metric. -/
def eAlwaysFail : StandardsEngine :=
  { standards := [("s", sAlwaysFail)]
    metrics := [("always_fail", mAlwaysFail)]
    threshold := 0.7
    auto_moderate := false }

/-- Validator holding `always_fail` with a registered custom evaluator that
always reports a failing result `(false, 1.0, "forced")`. -/
def vAlwaysFail : MetricsValidator :=
  MetricsValidator.addCustomValidator
    (MetricsValidator.mk' (some [("always_fail", mAlwaysFail)]))
    "always_fail" (fun _ _ => (false, 1, "forced"))

/-- Validator with an empty metric registry. -/
def vEmpty : MetricsValidator := MetricsValidator.mk' none

/-- Metric matching the literal `a`, used for the C7 counterexample. -/
def mLitA : Metric :=
  { name := "m"
    description := "literal-a metric"
    check_pattern := "a"
    severity := Severity.low
    threshold := 0.7
    enabled := true }

/-!
Helper lemmas.
-/

theorem dictGet_mem {α : Type} {l : List (String × α)} {k : String} {v : α}
    (h : dictGet l k = some v) : (k, v) ∈ l := by
  induction l with
  | nil => simp [dictGet] at h
  | cons p rest ih =>
    cases p with
    | mk a b =>
      rw [show dictGet ((a, b) :: rest) k
          = if a = k then some b else dictGet rest k from rfl] at h
      by_cases hk : a = k
      · rw [if_pos hk] at h
        subst hk
        obtain rfl : b = v := by injection h
        exact List.mem_cons_self _ _
      · rw [if_neg hk] at h
        exact List.mem_cons_of_mem _ (ih h)

theorem le_foldl_max {α : Type} [LinearOrder α] :
    ∀ (l : List α) (a : α), a ≤ l.foldl max a := by
  intro l
  induction l with
  | nil => intro a; exact le_refl a
  | cons b t ih =>
    intro a
    simpa only [List.foldl_cons] using
      le_trans (le_max_left a b) (ih (max a b))

theorem mem_le_foldl_max {α : Type} [LinearOrder α] :
    ∀ (l : List α) (a x : α), x ∈ l → x ≤ l.foldl max a := by
  intro l
  induction l with
  | nil => intro a x hx; simp at hx
  | cons b t ih =>
    intro a x hx
    simp only [List.foldl_cons]
    rcases List.mem_cons.mp hx with h | h
    · subst h
      exact le_trans (le_max_right a x) (le_foldl_max t (max a x))
    · exact ih (max a b) x h

theorem foldl_max_le {α : Type} [LinearOrder α] :
    ∀ (l : List α) (a b : α), a ≤ b → (∀ x ∈ l, x ≤ b) →
      l.foldl max a ≤ b := by
  intro l
  induction l with
  | nil => intro a b ha _; simpa using ha
  | cons c t ih =>
    intro a b ha hl
    simp only [List.foldl_cons]
    exact ih (max a c) b (max_le ha (hl c (List.mem_cons_self c t)))
      (fun x hx => hl x (List.mem_cons_of_mem c hx))

theorem foldl_max_mem {α : Type} [LinearOrder α] :
    ∀ (l : List α) (a : α), l.foldl max a = a ∨ l.foldl max a ∈ l := by
  intro l
  induction l with
  | nil => intro a; left; rfl
  | cons b t ih =>
    intro a
    simp only [List.foldl_cons]
    rcases ih (max a b) with h | h
    · rcases max_choice a b with hm | hm
      · left; rw [h, hm]
      · right; rw [h, hm]; exact List.mem_cons_self b t
    · right; exact List.mem_cons_of_mem b h

namespace StandardsEngine

theorem maxConfidence_eq (v : Violation) (vs : List Violation) :
    maxConfidence v vs = (vs.map Violation.confidence).foldl max v.confidence := by
  rw [maxConfidence, List.foldl_map]

theorem moderate_violations (rt : PyRuntime) (e : StandardsEngine) (c : Comment) :
    (moderate rt e c).violations = (moderateAccum rt e.metrics c e.standards).1 :=
  rfl

theorem moderate_score (rt : PyRuntime) (e : StandardsEngine) (c : Comment) :
    (moderate rt e c).score =
      (if 0 < (moderateAccum rt e.metrics c e.standards).2.2 then
        (moderateAccum rt e.metrics c e.standards).2.1 /
          (moderateAccum rt e.metrics c e.standards).2.2
      else 0) :=
  rfl

theorem moderate_action (rt : PyRuntime) (e : StandardsEngine) (c : Comment) :
    (moderate rt e c).action =
      determineAction e (moderate rt e c).score (moderate rt e c).violations :=
  rfl

theorem moderate_confidence (rt : PyRuntime) (e : StandardsEngine) (c : Comment) :
    (moderate rt e c).confidence =
      calculateConfidence (moderate rt e c).score (moderate rt e c).violations :=
  rfl

theorem moderateAccum_violations (rt : PyRuntime) (ms : List (String × Metric))
    (c : Comment) :
    ∀ sl : List (String × Standard),
      (moderateAccum rt ms c sl).1 =
        sl.flatMap (fun p =>
          if p.2.enabled = true then checkStandard rt ms c p.2 else []) := by
  intro sl
  induction sl with
  | nil => rfl
  | cons p rest ih =>
    cases p with
    | mk k st =>
      simp only [moderateAccum, List.flatMap_cons]
      cases hen : st.enabled with
      | false => simp [ih]
      | true =>
        cases hcs : checkStandard rt ms c st with
        | nil => simp [ih]
        | cons v vs => simp [ih]

theorem checkStandard_cases (rt : PyRuntime) (ms : List (String × Metric))
    (c : Comment) (st : Standard) :
    (thresholdsOf ms (violatedMetricNames rt ms c st) = [] ∧
      checkStandard rt ms c st = []) ∨
    ∃ t ts, thresholdsOf ms (violatedMetricNames rt ms c st) = t :: ts ∧
      checkStandard rt ms c st =
        [{ standard := st.name
           description := st.description
           severity := determineSeverity (ts.foldl max t) st
           confidence := ts.foldl max t
           violated_metrics := violatedMetricNames rt ms c st
           reasoning := "Comment violates " ++ st.name
             ++ " standard based on metrics: "
             ++ String.intercalate ", " (violatedMetricNames rt ms c st)
           position := none }] := by
  cases h : thresholdsOf ms (violatedMetricNames rt ms c st) with
  | nil => left; exact ⟨rfl, by simp [checkStandard, h]⟩
  | cons t ts => right; exact ⟨t, ts, rfl, by simp [checkStandard, h]⟩

theorem mem_checkStandard_name {rt : PyRuntime} {ms : List (String × Metric)}
    {c : Comment} {st : Standard} {v : Violation}
    (hv : v ∈ checkStandard rt ms c st) : v.standard = st.name := by
  rcases checkStandard_cases rt ms c st with ⟨_, h⟩ | ⟨t, ts, _, h⟩
  · rw [h] at hv
    simp at hv
  · rw [h, List.mem_singleton] at hv
    subst hv
    rfl

theorem mem_checkStandard_violated {rt : PyRuntime}
    {ms : List (String × Metric)} {c : Comment} {st : Standard} {v : Violation}
    (hv : v ∈ checkStandard rt ms c st) :
    v.violated_metrics = violatedMetricNames rt ms c st := by
  rcases checkStandard_cases rt ms c st with ⟨_, h⟩ | ⟨t, ts, _, h⟩
  · rw [h] at hv
    simp at hv
  · rw [h, List.mem_singleton] at hv
    subst hv
    rfl

theorem maxConfidence_bounds {v : Violation} {vs : List Violation}
    (hv : ∀ x ∈ v :: vs, 0 ≤ x.confidence ∧ x.confidence ≤ 1) :
    0 ≤ maxConfidence v vs ∧ maxConfidence v vs ≤ 1 := by
  rw [maxConfidence_eq]
  constructor
  · exact le_trans (hv v (List.mem_cons_self _ _)).1 (le_foldl_max _ _)
  · refine foldl_max_le _ _ _ (hv v (List.mem_cons_self _ _)).2 ?_
    intro x hx
    obtain ⟨y, hy, rfl⟩ := List.mem_map.mp hx
    exact (hv y (List.mem_cons_of_mem _ hy)).2

theorem checkStandard_conf_bounds {rt : PyRuntime}
    {ms : List (String × Metric)} {c : Comment} {st : Standard}
    (hth : ∀ p ∈ ms, 0 ≤ p.2.threshold ∧ p.2.threshold ≤ 1) :
    ∀ v ∈ checkStandard rt ms c st, 0 ≤ v.confidence ∧ v.confidence ≤ 1 := by
  intro v hv
  rcases checkStandard_cases rt ms c st with ⟨_, h⟩ | ⟨t, ts, hts, h⟩
  · rw [h] at hv
    simp at hv
  · rw [h, List.mem_singleton] at hv
    subst hv
    have hmem : ∀ x ∈ t :: ts, 0 ≤ x ∧ x ≤ 1 := by
      intro x hx
      rw [← hts, thresholdsOf, List.mem_filterMap] at hx
      obtain ⟨mn, _, hmx⟩ := hx
      obtain ⟨mobj, hget, hxeq⟩ := Option.map_eq_some'.mp hmx
      exact hxeq ▸ hth (mn, mobj) (dictGet_mem hget)
    constructor
    · exact le_trans (hmem t (List.mem_cons_self _ _)).1 (le_foldl_max ts t)
    · exact foldl_max_le ts t 1 (hmem t (List.mem_cons_self _ _)).2
        (fun x hx => (hmem x (List.mem_cons_of_mem _ hx)).2)

theorem moderateAccum_bounds (rt : PyRuntime) (ms : List (String × Metric))
    (c : Comment)
    (hth : ∀ p ∈ ms, 0 ≤ p.2.threshold ∧ p.2.threshold ≤ 1) :
    ∀ sl : List (String × Standard), (∀ p ∈ sl, 0 < p.2.weight) →
      (∀ v ∈ (moderateAccum rt ms c sl).1,
        0 ≤ v.confidence ∧ v.confidence ≤ 1) ∧
      0 ≤ (moderateAccum rt ms c sl).2.1 ∧
      (moderateAccum rt ms c sl).2.1 ≤ (moderateAccum rt ms c sl).2.2 := by
  intro sl
  induction sl with
  | nil =>
    intro _
    refine ⟨?_, le_refl 0, le_refl 0⟩
    intro v hv
    simp [moderateAccum] at hv
  | cons p rest ih =>
    intro hw
    obtain ⟨ihv, ihs, ihw⟩ := ih (fun q hq => hw q (List.mem_cons_of_mem _ hq))
    cases p with
    | mk k st =>
      have hwp : 0 < st.weight := hw (k, st) (List.mem_cons_self _ _)
      by_cases hen : st.enabled = false
      · simp only [moderateAccum, if_pos hen]
        exact ⟨ihv, ihs, ihw⟩
      · cases hcs : checkStandard rt ms c st with
        | nil =>
          simp only [moderateAccum, if_neg hen, hcs]
          refine ⟨ihv, ihs, ?_⟩
          exact le_trans ihw (le_add_of_nonneg_right (le_of_lt hwp))
        | cons v vs =>
          have hvb : ∀ x ∈ v :: vs, 0 ≤ x.confidence ∧ x.confidence ≤ 1 := by
            intro x hx
            exact checkStandard_conf_bounds hth x (hcs ▸ hx)
          obtain ⟨hmc0, hmc1⟩ := maxConfidence_bounds hvb
          simp only [moderateAccum, if_neg hen, hcs]
          refine ⟨?_, ?_, ?_⟩
          · intro x hx
            rcases List.mem_append.mp hx with h | h
            · exact hvb x (List.mem_cons.mpr (List.mem_cons.mp h))
            · exact ihv x h
          · have h0 : 0 ≤ maxConfidence v vs * st.weight :=
              mul_nonneg hmc0 (le_of_lt hwp)
            linarith
          · have h1 : maxConfidence v vs * st.weight ≤ st.weight := by
              calc maxConfidence v vs * st.weight
                  ≤ 1 * st.weight :=
                    mul_le_mul_of_nonneg_right hmc1 (le_of_lt hwp)
                _ = st.weight := one_mul _
            linarith

theorem calculateConfidence_bounds (score : ℚ) (violations : List Violation)
    (hv : ∀ x ∈ violations, 0 ≤ x.confidence ∧ x.confidence ≤ 1) :
    0 ≤ calculateConfidence score violations ∧
      calculateConfidence score violations ≤ 1 := by
  cases violations with
  | nil => simp [calculateConfidence]
  | cons v vs =>
    obtain ⟨hmc0, hmc1⟩ := maxConfidence_bounds hv
    have hcf0 : (0:ℚ) ≤ min (((v :: vs).length : ℚ) / 5) 1 :=
      le_min (by positivity) (by norm_num)
    have hcf1 : min (((v :: vs).length : ℚ) / 5) 1 ≤ 1 := min_le_right _ _
    constructor
    · rw [calculateConfidence]
      positivity
    · rw [calculateConfidence]
      rw [div_le_one (by norm_num : (0:ℚ) < 2)]
      linarith

theorem thresholdsOf_mem {ms : List (String × Metric)} {names : List String}
    {mn : String} {m : Metric} (h1 : mn ∈ names)
    (h2 : dictGet ms mn = some m) : m.threshold ∈ thresholdsOf ms names := by
  rw [thresholdsOf, List.mem_filterMap]
  exact ⟨mn, h1, by rw [h2]; rfl⟩

theorem mem_violatedMetricNames {rt : PyRuntime} {ms : List (String × Metric)}
    {c : Comment} {st : Standard} {mn : String} {m : Metric}
    (h1 : mn ∈ st.metrics) (h2 : dictGet ms mn = some m)
    (h3 : m.enabled = true) (h4 : (checkMetric rt c m).1 = false) :
    mn ∈ violatedMetricNames rt ms c st := by
  rw [violatedMetricNames, List.mem_filter]
  refine ⟨h1, ?_⟩
  rw [h2]
  simp [h3, h4]

theorem not_mem_violatedMetricNames {rt : PyRuntime}
    {ms : List (String × Metric)} {c : Comment} {mn : String} {m : Metric}
    (st : Standard) (h2 : dictGet ms mn = some m)
    (hp : (checkMetric rt c m).1 = true) :
    mn ∉ violatedMetricNames rt ms c st := by
  intro hmem
  rw [violatedMetricNames, List.mem_filter] at hmem
  rcases hmem with ⟨_, hpred⟩
  rw [h2] at hpred
  simp [hp] at hpred

theorem determineSeverity_eq_bands (confidence : ℚ) (st : Standard) :
    determineSeverity confidence st = specSeverityBands confidence := by
  rw [determineSeverity, specSeverityBands]
  split_ifs with h1 h2 h3 h4 h5 h6 h7 <;>
    first
      | rfl
      | (exfalso; norm_num at *; linarith)

theorem determineSeverity_high_or_critical {confidence : ℚ} (st : Standard)
    (h : (0.7 : ℚ) ≤ confidence) :
    determineSeverity confidence st = Severity.critical ∨
      determineSeverity confidence st = Severity.high := by
  rw [determineSeverity]
  split_ifs with h1
  · left; rfl
  · right; rfl

theorem determineAction_remove (e : StandardsEngine) (score : ℚ)
    {violations : List Violation} {v : Violation} (hv : v ∈ violations)
    (hsev : v.severity = Severity.critical ∨ v.severity = Severity.high) :
    determineAction e score violations = ModerationAction.remove := by
  rw [determineAction]
  have hne : violations.isEmpty = false := by
    cases violations
    · simp at hv
    · rfl
  rw [if_neg (by simp [hne])]
  by_cases hc :
      violations.any (fun x => decide (x.severity = Severity.critical)) = true
  · rw [if_pos hc]
  · rw [if_neg hc]
    have hh :
        violations.any (fun x => decide (x.severity = Severity.high)) = true := by
      rcases hsev with h | h
      · exact absurd (List.any_eq_true.mpr ⟨v, hv, by simp [h]⟩) hc
      · exact List.any_eq_true.mpr ⟨v, hv, by simp [h]⟩
    rw [if_pos hh]

theorem determineAction_eq_spec (e : StandardsEngine) (score : ℚ)
    (violations : List Violation) :
    determineAction e score violations =
      specActionOrder e.threshold e.auto_moderate score violations := by
  rw [determineAction, specActionOrder]
  by_cases h1 : violations = []
  · rw [if_pos (by simp [h1]), if_pos h1]
  · rw [if_neg (by simp [List.isEmpty_iff, h1]), if_neg h1]
    by_cases h2 : ∃ v ∈ violations, v.severity = Severity.critical
    · rw [if_pos (List.any_eq_true.mpr (by simpa using h2)), if_pos h2]
    · rw [if_neg (fun hc => h2 (by simpa using List.any_eq_true.mp hc)),
        if_neg h2]
      by_cases h3 : ∃ v ∈ violations, v.severity = Severity.high
      · rw [if_pos (List.any_eq_true.mpr (by simpa using h3)), if_pos h3]
      · rw [if_neg (fun hc => h3 (by simpa using List.any_eq_true.mp hc)),
          if_neg h3]

theorem filter_flatMap {α β : Type} (l : List α) (f : α → List β)
    (p : β → Bool) :
    (l.flatMap f).filter p = l.flatMap (fun a => (f a).filter p) := by
  induction l with
  | nil => rfl
  | cons a t ih => simp [List.flatMap_cons, List.filter_append, ih]

theorem filter_checkStandard_self (rt : PyRuntime)
    (ms : List (String × Metric)) (c : Comment) (st : Standard) :
    (checkStandard rt ms c st).filter
        (fun x => decide (x.standard = st.name)) =
      checkStandard rt ms c st := by
  rcases checkStandard_cases rt ms c st with ⟨_, h⟩ | ⟨t, ts, _, h⟩ <;>
    simp [h]

theorem filter_checkStandard_ne (rt : PyRuntime)
    (ms : List (String × Metric)) (c : Comment) (st : Standard)
    {nm : String} (hne : st.name ≠ nm) :
    (checkStandard rt ms c st).filter
        (fun x => decide (x.standard = nm)) = [] := by
  rcases checkStandard_cases rt ms c st with ⟨_, h⟩ | ⟨t, ts, _, h⟩ <;>
    simp [h, hne]

theorem filter_flatMap_violations_nil (rt : PyRuntime)
    (ms : List (String × Metric)) (c : Comment) {nm : String} :
    ∀ sl : List (String × Standard), (∀ q ∈ sl, q.2.name = q.1) →
      (∀ q ∈ sl, q.1 ≠ nm) →
      ((sl.flatMap (fun p =>
          if p.2.enabled = true then checkStandard rt ms c p.2 else [])).filter
        (fun x => decide (x.standard = nm))) = [] := by
  intro sl
  induction sl with
  | nil => intro _ _; rfl
  | cons q t ih =>
    intro hnames hne
    rw [List.flatMap_cons, List.filter_append]
    have hq : q.2.name ≠ nm := by
      rw [hnames q (List.mem_cons_self q t)]
      exact hne q (List.mem_cons_self q t)
    have h1 : ((if q.2.enabled = true then checkStandard rt ms c q.2
        else []).filter (fun x => decide (x.standard = nm))) = [] := by
      by_cases hen : q.2.enabled = true
      · rw [if_pos hen]; exact filter_checkStandard_ne rt ms c q.2 hq
      · rw [if_neg hen]; rfl
    rw [h1, List.nil_append]
    exact ih (fun p hp => hnames p (List.mem_cons_of_mem q hp))
      (fun p hp => hne p (List.mem_cons_of_mem q hp))

theorem filter_flatMap_violations (rt : PyRuntime) (ms : List (String × Metric))
    (c : Comment) :
    ∀ (sl : List (String × Standard)) (sname : String) (s : Standard),
      dictGet sl sname = some s →
      (sl.map Prod.fst).Nodup →
      (∀ p ∈ sl, p.2.name = p.1) →
      s.enabled = true →
      ((sl.flatMap (fun p =>
          if p.2.enabled = true then checkStandard rt ms c p.2 else [])).filter
        (fun x => decide (x.standard = s.name))) = checkStandard rt ms c s := by
  intro sl
  induction sl with
  | nil => intro sname s hget; simp [dictGet] at hget
  | cons q t ih =>
    intro sname s hget hkeys hnames hen
    cases q with
    | mk k st0 =>
      rw [List.flatMap_cons, List.filter_append]
      rw [show dictGet ((k, st0) :: t) sname
          = if k = sname then some st0 else dictGet t sname from rfl] at hget
      by_cases hk : k = sname
      · have hs : st0 = s := by
          rw [if_pos hk] at hget
          injection hget
        subst hs
        have hname : st0.name = k := hnames (k, st0) (List.mem_cons_self _ _)
        have hrest : ((t.flatMap (fun p =>
            if p.2.enabled = true then checkStandard rt ms c p.2 else [])).filter
            (fun x => decide (x.standard = st0.name))) = [] := by
          apply filter_flatMap_violations_nil rt ms c t
            (fun p hp => hnames p (List.mem_cons_of_mem _ hp))
          intro p hp
          rw [hname, hk]
          intro hcontra
          rw [List.map_cons, List.nodup_cons] at hkeys
          apply hkeys.1
          show k ∈ List.map Prod.fst t
          rw [hk, ← hcontra]
          exact List.mem_map_of_mem Prod.fst hp
        rw [hrest, if_pos hen, filter_checkStandard_self, List.append_nil]
      · have hget' : dictGet t sname = some s := by
          rw [if_neg hk] at hget
          exact hget
        have hsname : s.name = sname := by
          have hmem := dictGet_mem hget'
          exact hnames (sname, s) (List.mem_cons_of_mem _ hmem)
        have hhead : ((if st0.enabled = true then checkStandard rt ms c st0
            else []).filter (fun x => decide (x.standard = s.name))) = [] := by
          by_cases hen0 : st0.enabled = true
          · rw [if_pos hen0]
            apply filter_checkStandard_ne
            rw [hnames (k, st0) (List.mem_cons_self _ _), hsname]
            exact hk
          · rw [if_neg hen0]; rfl
        rw [hhead, List.nil_append]
        rw [List.map_cons, List.nodup_cons] at hkeys
        exact ih sname s hget' hkeys.2
          (fun p hp => hnames p (List.mem_cons_of_mem _ hp)) hen

end StandardsEngine

/-!
Claim theorems.
-/

/-- C2 counterexample: an engine constructed with `standards = {}` does not
approve every input -- the falsy constructor argument installs the default
catalog, and the comment `"kill"` is then removed with a non-zero score. -/
theorem c2_counterexample :
    (StandardsEngine.moderate rtKill
        (StandardsEngine.mk' (some []) none 0.7 false) (mkComment "kill")).action
      = ModerationAction.remove ∧
    ModerationAction.remove ≠ ModerationAction.approve ∧
    (StandardsEngine.moderate rtKill
        (StandardsEngine.mk' (some []) none 0.7 false) (mkComment "kill")).score
      ≠ 0 := by
  have hsafety :
      StandardsEngine.checkStandard rtKill StandardsEngine.DEFAULT_METRICS
        (mkComment "kill")
        { name := "safety",
          description := "Protect users from harmful, dangerous, or illegal content",
          metrics := ["profanity", "threats", "self_harm", "illegal_content"],
          enabled := true, weight := 1.5, severity_threshold := 0.6 }
      = [{ standard := "safety",
           description := "Protect users from harmful, dangerous, or illegal content",
           severity := Severity.medium, confidence := 0.5,
           violated_metrics := ["threats"],
           reasoning := "Comment violates safety standard based on metrics: "
             ++ String.intercalate ", " ["threats"],
           position := none }] := by
    rw [StandardsEngine.checkStandard]
    rw [show StandardsEngine.violatedMetricNames rtKill
        StandardsEngine.DEFAULT_METRICS (mkComment "kill")
        { name := "safety",
          description := "Protect users from harmful, dangerous, or illegal content",
          metrics := ["profanity", "threats", "self_harm", "illegal_content"],
          enabled := true, weight := 1.5, severity_threshold := 0.6 }
        = ["threats"] by
      simp [StandardsEngine.violatedMetricNames, StandardsEngine.checkMetric,
        StandardsEngine.DEFAULT_METRICS, dictGet, rtKill, killMatches, mkComment,
        List.filter_cons, List.filter_nil,
        (by decide : strLower "kill" = "kill"),
        (by decide : wordCount "kill" = 1),
        (by norm_num : ¬((1:ℚ) < 1/2)),
        (by norm_num : ¬((1:ℚ) < 3/5)),
        (by norm_num : ¬((1:ℚ) < 7/10)),
        (by norm_num : ¬((1:ℚ) < (0.5:ℚ))),
        (by norm_num : ¬((1:ℚ) < (0.6:ℚ))),
        (by norm_num : ¬((1:ℚ) < (0.7:ℚ)))]]
    rw [show StandardsEngine.thresholdsOf StandardsEngine.DEFAULT_METRICS
        ["threats"] = [0.5] by
      simp [StandardsEngine.thresholdsOf, StandardsEngine.DEFAULT_METRICS,
        dictGet, List.filterMap_cons, List.filterMap_nil]]
    norm_num [StandardsEngine.determineSeverity]
    all_goals decide
  have hquality :
      StandardsEngine.checkStandard rtKill StandardsEngine.DEFAULT_METRICS
        (mkComment "kill")
        { name := "quality",
          description := "Maintain high-quality, constructive discussion",
          metrics := ["length", "substance", "relevance", "coherence"],
          enabled := true, weight := 1.0, severity_threshold := 0.7 }
      = [{ standard := "quality",
           description := "Maintain high-quality, constructive discussion",
           severity := Severity.high, confidence := 0.7,
           violated_metrics := ["length", "relevance", "coherence"],
           reasoning := "Comment violates quality standard based on metrics: "
             ++ String.intercalate ", " ["length", "relevance", "coherence"],
           position := none }] := by
    rw [StandardsEngine.checkStandard]
    rw [show StandardsEngine.violatedMetricNames rtKill
        StandardsEngine.DEFAULT_METRICS (mkComment "kill")
        { name := "quality",
          description := "Maintain high-quality, constructive discussion",
          metrics := ["length", "substance", "relevance", "coherence"],
          enabled := true, weight := 1.0, severity_threshold := 0.7 }
        = ["length", "relevance", "coherence"] by
      simp [StandardsEngine.violatedMetricNames, StandardsEngine.checkMetric,
        StandardsEngine.DEFAULT_METRICS, dictGet, rtKill, killMatches, mkComment,
        List.filter_cons, List.filter_nil,
        (by decide : strLower "kill" = "kill"),
        (by decide : wordCount "kill" = 1),
        (by norm_num : ¬((1:ℚ) < 1/2)),
        (by norm_num : ¬((1:ℚ) < 3/5)),
        (by norm_num : ¬((1:ℚ) < 7/10)),
        (by norm_num : ¬((1:ℚ) < (0.6:ℚ))),
        (by norm_num : ¬((1:ℚ) < (0.7:ℚ)))]]
    rw [show StandardsEngine.thresholdsOf StandardsEngine.DEFAULT_METRICS
        ["length", "relevance", "coherence"] = [0.6, 0.7, 0.7] by
      simp [StandardsEngine.thresholdsOf, StandardsEngine.DEFAULT_METRICS,
        dictGet, List.filterMap_cons, List.filterMap_nil]]
    norm_num [StandardsEngine.determineSeverity,
      (by norm_num : max (0.6:ℚ) (0.7:ℚ) = 0.7),
      (by norm_num : max (0.7:ℚ) (0.7:ℚ) = 0.7)]
    all_goals decide
  have hspam :
      StandardsEngine.checkStandard rtKill StandardsEngine.DEFAULT_METRICS
        (mkComment "kill")
        { name := "spam",
          description := "Prevent spam and promotional content",
          metrics := ["repetition", "links", "keywords", "patterns"],
          enabled := true, weight := 1.2, severity_threshold := 0.6 }
      = [] := by
    rw [StandardsEngine.checkStandard]
    rw [show StandardsEngine.violatedMetricNames rtKill
        StandardsEngine.DEFAULT_METRICS (mkComment "kill")
        { name := "spam",
          description := "Prevent spam and promotional content",
          metrics := ["repetition", "links", "keywords", "patterns"],
          enabled := true, weight := 1.2, severity_threshold := 0.6 }
        = [] by
      simp [StandardsEngine.violatedMetricNames, StandardsEngine.checkMetric,
        StandardsEngine.DEFAULT_METRICS, dictGet, rtKill, killMatches, mkComment,
        List.filter_cons, List.filter_nil,
        (by decide : strLower "kill" = "kill"),
        (by decide : wordCount "kill" = 1)]]
    rfl
  have hpolicy :
      StandardsEngine.checkStandard rtKill StandardsEngine.DEFAULT_METRICS
        (mkComment "kill")
        { name := "policy",
          description := "Enforce platform-specific policies",
          metrics := ["harassment", "hate_speech", "misinformation", "violence"],
          enabled := true, weight := 1.5, severity_threshold := 0.5 }
      = [{ standard := "policy",
           description := "Enforce platform-specific policies",
           severity := Severity.medium, confidence := 0.6,
           violated_metrics := ["violence"],
           reasoning := "Comment violates policy standard based on metrics: "
             ++ String.intercalate ", " ["violence"],
           position := none }] := by
    rw [StandardsEngine.checkStandard]
    rw [show StandardsEngine.violatedMetricNames rtKill
        StandardsEngine.DEFAULT_METRICS (mkComment "kill")
        { name := "policy",
          description := "Enforce platform-specific policies",
          metrics := ["harassment", "hate_speech", "misinformation", "violence"],
          enabled := true, weight := 1.5, severity_threshold := 0.5 }
        = ["violence"] by
      simp [StandardsEngine.violatedMetricNames, StandardsEngine.checkMetric,
        StandardsEngine.DEFAULT_METRICS, dictGet, rtKill, killMatches, mkComment,
        List.filter_cons, List.filter_nil,
        (by decide : strLower "kill" = "kill"),
        (by decide : wordCount "kill" = 1),
        (by norm_num : ¬((1:ℚ) < 1/2)),
        (by norm_num : ¬((1:ℚ) < 3/5)),
        (by norm_num : ¬((1:ℚ) < (0.6:ℚ)))]]
    rw [show StandardsEngine.thresholdsOf StandardsEngine.DEFAULT_METRICS
        ["violence"] = [0.6] by
      simp [StandardsEngine.thresholdsOf, StandardsEngine.DEFAULT_METRICS,
        dictGet, List.filterMap_cons, List.filterMap_nil]]
    norm_num [StandardsEngine.determineSeverity]
    all_goals decide
  have hengagement :
      StandardsEngine.checkStandard rtKill StandardsEngine.DEFAULT_METRICS
        (mkComment "kill")
        { name := "engagement",
          description := "Encourage meaningful engagement",
          metrics := ["tone", "constructiveness", "civility", "helpfulness"],
          enabled := true, weight := 0.8, severity_threshold := 0.7 }
      = [{ standard := "engagement",
           description := "Encourage meaningful engagement",
           severity := Severity.high, confidence := 0.7,
           violated_metrics := ["tone", "civility"],
           reasoning := "Comment violates engagement standard based on metrics: "
             ++ String.intercalate ", " ["tone", "civility"],
           position := none }] := by
    rw [StandardsEngine.checkStandard]
    rw [show StandardsEngine.violatedMetricNames rtKill
        StandardsEngine.DEFAULT_METRICS (mkComment "kill")
        { name := "engagement",
          description := "Encourage meaningful engagement",
          metrics := ["tone", "constructiveness", "civility", "helpfulness"],
          enabled := true, weight := 0.8, severity_threshold := 0.7 }
        = ["tone", "civility"] by
      simp [StandardsEngine.violatedMetricNames, StandardsEngine.checkMetric,
        StandardsEngine.DEFAULT_METRICS, dictGet, rtKill, killMatches, mkComment,
        List.filter_cons, List.filter_nil,
        (by decide : strLower "kill" = "kill"),
        (by decide : wordCount "kill" = 1),
        (by norm_num : ¬((1:ℚ) < 7/10)),
        (by norm_num : ¬((1:ℚ) < (0.7:ℚ)))]]
    rw [show StandardsEngine.thresholdsOf StandardsEngine.DEFAULT_METRICS
        ["tone", "civility"] = [0.7, 0.7] by
      simp [StandardsEngine.thresholdsOf, StandardsEngine.DEFAULT_METRICS,
        dictGet, List.filterMap_cons, List.filterMap_nil]]
    norm_num [StandardsEngine.determineSeverity,
      (by norm_num : max (0.7:ℚ) (0.7:ℚ) = 0.7)]
    all_goals decide
  have hacc :
      StandardsEngine.moderateAccum rtKill StandardsEngine.DEFAULT_METRICS
        (mkComment "kill") StandardsEngine.DEFAULT_STANDARDS
      = ([{ standard := "safety",
            description := "Protect users from harmful, dangerous, or illegal content",
            severity := Severity.medium, confidence := 0.5,
            violated_metrics := ["threats"],
            reasoning := "Comment violates safety standard based on metrics: "
              ++ String.intercalate ", " ["threats"],
            position := none },
          { standard := "quality",
            description := "Maintain high-quality, constructive discussion",
            severity := Severity.high, confidence := 0.7,
            violated_metrics := ["length", "relevance", "coherence"],
            reasoning := "Comment violates quality standard based on metrics: "
              ++ String.intercalate ", " ["length", "relevance", "coherence"],
            position := none },
          { standard := "policy",
            description := "Enforce platform-specific policies",
            severity := Severity.medium, confidence := 0.6,
            violated_metrics := ["violence"],
            reasoning := "Comment violates policy standard based on metrics: "
              ++ String.intercalate ", " ["violence"],
            position := none },
          { standard := "engagement",
            description := "Encourage meaningful engagement",
            severity := Severity.high, confidence := 0.7,
            violated_metrics := ["tone", "civility"],
            reasoning := "Comment violates engagement standard based on metrics: "
              ++ String.intercalate ", " ["tone", "civility"],
            position := none }],
         291/100, 6) := by
    simp [StandardsEngine.moderateAccum, StandardsEngine.DEFAULT_STANDARDS,
      hsafety, hquality, hspam, hpolicy, hengagement,
      StandardsEngine.maxConfidence]
    norm_num
  refine ⟨?_, by decide, ?_⟩
  · simp [StandardsEngine.moderate, StandardsEngine.mk', hacc,
      StandardsEngine.determineAction]
  · simp [StandardsEngine.moderate, StandardsEngine.mk', hacc]


/-- C2 (amended): an engine whose standards registry is actually empty
(e.g. after all standards are removed) approves every comment with score 0;
the constructor, however, turns an explicitly empty `standards` dict into
the default catalog, so `StandardsEngine({})` is not such an engine. -/
theorem c2_amended_theorem (rt : PyRuntime) (ms : List (String × Metric))
    (th : ℚ) (am : Bool) (c : Comment) :
    (StandardsEngine.moderate rt ⟨[], ms, th, am⟩ c).action
      = ModerationAction.approve ∧
    (StandardsEngine.moderate rt ⟨[], ms, th, am⟩ c).score = 0 := by
  constructor
  · simp [StandardsEngine.moderate, StandardsEngine.moderateAccum,
      StandardsEngine.determineAction]
  · simp [StandardsEngine.moderate, StandardsEngine.moderateAccum]

/-- C3 counterexample: with the custom evaluator for `always_fail`
registered and returning the failing result, `validate` does resolve it --
but `moderate` on an engine whose standard references `always_fail`
produces no violation at all (the metric's own pattern does not match), so
the registration does not cause a violation under `moderate`. -/
theorem c3_counterexample :
    MetricsValidator.validate rtLit vAlwaysFail (mkComment "hello")
        "always_fail" = (false, 1, "forced") ∧
    (StandardsEngine.moderate rtLit eAlwaysFail (mkComment "hello")).violations
      = [] ∧
    (StandardsEngine.moderate rtLit eAlwaysFail (mkComment "hello")).action
      = ModerationAction.approve := by
  refine ⟨?_, ?_, ?_⟩
  · simp [MetricsValidator.validate, vAlwaysFail,
      MetricsValidator.addCustomValidator, MetricsValidator.mk',
      mAlwaysFail, dictGet, dictInsert]
  · simp [StandardsEngine.moderate, StandardsEngine.moderateAccum,
      StandardsEngine.checkStandard, StandardsEngine.violatedMetricNames,
      StandardsEngine.thresholdsOf, StandardsEngine.checkMetric,
      eAlwaysFail, sAlwaysFail, mAlwaysFail, dictGet, rtLit, mkComment,
      List.filter_cons, List.filter_nil,
      (by decide : strLower "hello" = "hello")]
  · simp [StandardsEngine.moderate, StandardsEngine.moderateAccum,
      StandardsEngine.checkStandard, StandardsEngine.violatedMetricNames,
      StandardsEngine.thresholdsOf, StandardsEngine.checkMetric,
      StandardsEngine.determineAction,
      eAlwaysFail, sAlwaysFail, mAlwaysFail, dictGet, rtLit, mkComment,
      List.filter_cons, List.filter_nil,
      (by decide : strLower "hello" = "hello")]

/-- C3 (amended): on a `MetricsValidator`, a registered custom evaluator is
resolved before and instead of the default algorithm; `StandardsEngine`
has no access to custom evaluators, so such a registration does not by
itself make `moderate` produce violations (see the counterexample). -/
theorem c3_amended_theorem (rt : PyRuntime) (v : MetricsValidator)
    (c : Comment) (name : String)
    (f : Comment → Metric → Bool × ℚ × String) (mObj : Metric)
    (hm : dictGet v.metrics name = some mObj)
    (hf : dictGet v.customValidators name = some f) :
    MetricsValidator.validate rt v c name = f c mObj := by
  simp [MetricsValidator.validate, hm, hf]

/-- C3 witness: the amended resolution property at the concrete
`always_fail` validator. -/
theorem c3_amended_witness :
    MetricsValidator.validate rtLit vAlwaysFail (mkComment "hi")
      "always_fail" = (false, 1, "forced") := by
  have h := c3_amended_theorem rtLit vAlwaysFail (mkComment "hi")
    "always_fail" (fun _ _ => (false, 1, "forced")) mAlwaysFail
    (by simp [vAlwaysFail, MetricsValidator.addCustomValidator,
      MetricsValidator.mk', dictGet])
    (by simp [vAlwaysFail, MetricsValidator.addCustomValidator,
      MetricsValidator.mk', dictGet, dictInsert])
  exact h

/-- C6: the action reported by `moderate` is selected by the first matching
rule in the spec order (no violations: APPROVE; any CRITICAL: REMOVE; any
HIGH: REMOVE; score at or above the engine threshold with auto-moderation:
HIDE; otherwise FLAG). -/
theorem c6_theorem (rt : PyRuntime) (e : StandardsEngine) (c : Comment) :
    (StandardsEngine.moderate rt e c).action =
      specActionOrder e.threshold e.auto_moderate
        (StandardsEngine.moderate rt e c).score
        (StandardsEngine.moderate rt e c).violations := by
  rw [StandardsEngine.moderate_action]
  exact StandardsEngine.determineAction_eq_spec e _ _

/-- C9 counterexample: the diagnostic for a missing metric quotes the
metric name -- the reported string is not the literal `"Metric not
found"`. -/
theorem c9_counterexample :
    (MetricsValidator.validate rtLit vEmpty (mkComment "hello")
        "nonexistent_metric").2.2
      = "Metric \x27nonexistent_metric\x27 not found" ∧
    (MetricsValidator.validate rtLit vEmpty (mkComment "hello")
        "nonexistent_metric").2.2
      ≠ "Metric not found" := by
  constructor
  · rfl
  · decide

/-- C9 (amended): `remove_standard` on a missing name returns `false` and
leaves the engine unchanged, and `validate` on a missing metric name
returns `(true, 0.0, "Metric '<name>' not found")` (the diagnostic includes
the quoted metric name). -/
theorem c9_amended_theorem (rt : PyRuntime) (e : StandardsEngine)
    (name : String) (v : MetricsValidator) (c : Comment) (mn : String)
    (h1 : dictGet e.standards name = none)
    (h2 : dictGet v.metrics mn = none) :
    StandardsEngine.removeStandard e name = (false, e) ∧
    MetricsValidator.validate rt v c mn
      = (true, 0, "Metric \x27" ++ mn ++ "\x27 not found") := by
  constructor
  · rw [StandardsEngine.removeStandard, h1]
    rfl
  · simp [MetricsValidator.validate, h2]

/-- C9 witness: the amended registry-robustness property at concrete
missing names. -/
theorem c9_amended_witness :
    StandardsEngine.removeStandard eDemo "nonexistent" = (false, eDemo) ∧
    MetricsValidator.validate rtLit vEmpty (mkComment "hello")
        "nonexistent_metric"
      = (true, 0, "Metric \x27" ++ "nonexistent_metric" ++ "\x27 not found") :=
  c9_amended_theorem rtLit eDemo "nonexistent" vEmpty (mkComment "hello")
    "nonexistent_metric" (by simp [eDemo, dictGet])
    (by simp [vEmpty, MetricsValidator.mk', dictGet])

/-- C10: constructing an engine with `None` or an explicitly empty dict for
a registry installs the built-in default catalog for that registry; a
non-empty dict is used as given. -/
theorem c10_theorem (sl : List (String × Standard))
    (ml : List (String × Metric)) (th : ℚ) (am : Bool)
    (hsl : sl ≠ []) (hml : ml ≠ []) :
    (StandardsEngine.mk' none none th am).standards
      = StandardsEngine.DEFAULT_STANDARDS ∧
    (StandardsEngine.mk' none none th am).metrics
      = StandardsEngine.DEFAULT_METRICS ∧
    (StandardsEngine.mk' (some []) (some []) th am).standards
      = StandardsEngine.DEFAULT_STANDARDS ∧
    (StandardsEngine.mk' (some []) (some []) th am).metrics
      = StandardsEngine.DEFAULT_METRICS ∧
    (StandardsEngine.mk' (some sl) (some ml) th am).standards = sl ∧
    (StandardsEngine.mk' (some sl) (some ml) th am).metrics = ml := by
  refine ⟨rfl, rfl, rfl, rfl, ?_, ?_⟩
  · cases sl with
    | nil => exact absurd rfl hsl
    | cons a t => rfl
  · cases ml with
    | nil => exact absurd rfl hml
    | cons a t => rfl

/-- C10 witness: the constructor fallbacks at concrete non-empty registry
arguments. -/
theorem c10_witness :
    (StandardsEngine.mk' none none 0.7 false).standards
      = StandardsEngine.DEFAULT_STANDARDS ∧
    (StandardsEngine.mk' none none 0.7 false).metrics
      = StandardsEngine.DEFAULT_METRICS ∧
    (StandardsEngine.mk' (some []) (some []) 0.7 false).standards
      = StandardsEngine.DEFAULT_STANDARDS ∧
    (StandardsEngine.mk' (some []) (some []) 0.7 false).metrics
      = StandardsEngine.DEFAULT_METRICS ∧
    (StandardsEngine.mk' (some [("s", sDemo)]) (some [("m", mKill)])
        0.7 false).standards = [("s", sDemo)] ∧
    (StandardsEngine.mk' (some [("s", sDemo)]) (some [("m", mKill)])
        0.7 false).metrics = [("m", mKill)] :=
  c10_theorem [("s", sDemo)] [("m", mKill)] 0.7 false
    (List.cons_ne_nil _ _) (List.cons_ne_nil _ _)

/-- C1 counterexample: a registered CRITICAL-severity metric whose pattern
matches the comment text does not force REMOVE -- the metric's declared
severity is never consulted, and with threshold 0.5 the synthesized
violation lands in the MEDIUM band, so the action is FLAG. -/
theorem c1_counterexample :
    mKill.severity = Severity.critical ∧
    rtLit.findall mKill.check_pattern (strLower (mkComment "kill").text)
      = Except.ok ["kill"] ∧
    (StandardsEngine.moderate rtLit eDemo (mkComment "kill")).action
      = ModerationAction.flag ∧
    ModerationAction.flag ≠ ModerationAction.remove := by
  refine ⟨rfl, ?_, ?_, by decide⟩
  · simp [rtLit, mKill, mkComment, (by decide : strLower "kill" = "kill")]
  · simp [StandardsEngine.moderate, StandardsEngine.moderateAccum,
      StandardsEngine.checkStandard, StandardsEngine.violatedMetricNames,
      StandardsEngine.thresholdsOf, StandardsEngine.checkMetric,
      StandardsEngine.determineSeverity, StandardsEngine.determineAction,
      StandardsEngine.maxConfidence,
      eDemo, sDemo, mKill, dictGet, rtLit, mkComment,
      List.filter_cons, List.filter_nil, List.filterMap_cons, List.filterMap_nil,
      (by decide : strLower "kill" = "kill"),
      (by decide : wordCount "kill" = 1),
      (by norm_num : ¬((1:ℚ) < (0.5:ℚ))),
      (by norm_num : ¬((0.9:ℚ) ≤ (0.5:ℚ))),
      (by norm_num : ¬((0.7:ℚ) ≤ (0.5:ℚ))),
      (by norm_num : ¬((0.7:ℚ) ≤ (0.5:ℚ) * 1))]

/-- C1 (amended): if an enabled standard references an enabled registered
metric with threshold at least 0.7 and that metric fails on the comment,
`moderate` returns REMOVE regardless of `auto_moderate` (the violation
confidence is at least the metric threshold, so its severity band is HIGH
or CRITICAL). -/
theorem c1_amended_theorem (rt : PyRuntime) (e : StandardsEngine)
    (c : Comment) (sname : String) (s : Standard) (mn : String) (m : Metric)
    (hs : dictGet e.standards sname = some s)
    (hen : s.enabled = true)
    (hmn : mn ∈ s.metrics)
    (hm : dictGet e.metrics mn = some m)
    (hmen : m.enabled = true)
    (hth : (0.7 : ℚ) ≤ m.threshold)
    (hfail : (StandardsEngine.checkMetric rt c m).1 = false) :
    (StandardsEngine.moderate rt e c).action = ModerationAction.remove := by
  have hsmem : (sname, s) ∈ e.standards := dictGet_mem hs
  have hvm : mn ∈ StandardsEngine.violatedMetricNames rt e.metrics c s :=
    StandardsEngine.mem_violatedMetricNames hmn hm hmen hfail
  have hthm : m.threshold ∈ StandardsEngine.thresholdsOf e.metrics
      (StandardsEngine.violatedMetricNames rt e.metrics c s) :=
    StandardsEngine.thresholdsOf_mem hvm hm
  rcases StandardsEngine.checkStandard_cases rt e.metrics c s with
    ⟨hnil, _⟩ | ⟨t, ts, hts, hcs⟩
  · rw [hnil] at hthm
    simp at hthm
  · have hconf : (0.7 : ℚ) ≤ ts.foldl max t := by
      rw [hts] at hthm
      rcases List.mem_cons.mp hthm with h | h
      · exact le_trans hth (h ▸ le_foldl_max ts t)
      · exact le_trans hth (mem_le_foldl_max ts t m.threshold h)
    obtain ⟨v, hvcs, hvsev⟩ :
        ∃ v, v ∈ StandardsEngine.checkStandard rt e.metrics c s ∧
          (v.severity = Severity.critical ∨ v.severity = Severity.high) := by
      refine ⟨_, by rw [hcs]; exact List.mem_singleton.mpr rfl, ?_⟩
      exact StandardsEngine.determineSeverity_high_or_critical s hconf
    have hvmem : v ∈ (StandardsEngine.moderate rt e c).violations := by
      rw [StandardsEngine.moderate_violations,
        StandardsEngine.moderateAccum_violations rt e.metrics c e.standards]
      exact List.mem_flatMap.mpr
        ⟨(sname, s), hsmem, by rw [if_pos hen]; exact hvcs⟩
    rw [StandardsEngine.moderate_action]
    exact StandardsEngine.determineAction_remove e _ hvmem hvsev

/-- C1 witness: the amended property at a concrete engine whose metric has
threshold 0.7 and fails on the text. -/
theorem c1_amended_witness :
    (StandardsEngine.moderate rtLit eDemo7 (mkComment "kill")).action
      = ModerationAction.remove :=
  c1_amended_theorem rtLit eDemo7 (mkComment "kill") "s" sDemo "m" mKill7
    (by simp [eDemo7, dictGet]) rfl (by simp [sDemo])
    (by simp [eDemo7, dictGet]) rfl (by norm_num [mKill7])
    (by simp [StandardsEngine.checkMetric, mKill7, rtLit, mkComment,
      (by decide : strLower "kill" = "kill"),
      (by decide : wordCount "kill" = 1),
      (by norm_num : ¬((1:ℚ) < (0.7:ℚ)))])

/-- C4: a metric whose pattern evaluation raises is caught: both the
engine-internal check and the validator default evaluation report a pass
with score 0 and a diagnostic string, and no violation reported by
`moderate` ever lists that metric name (moderation never propagates the
exception; the model is total by construction). -/
theorem c4_theorem (rt : PyRuntime) (c : Comment) (m : Metric) (msg : String)
    (e : StandardsEngine) (mn : String)
    (he : rt.findall m.check_pattern (strLower c.text) = Except.error msg)
    (hmn : dictGet e.metrics mn = some m) :
    StandardsEngine.checkMetric rt c m
      = (true, 0, "Error checking " ++ m.name) ∧
    MetricsValidator.defaultValidate rt c m
      = (true, 0, "Error validating \x27" ++ m.name ++ "\x27: " ++ msg) ∧
    ((StandardsEngine.moderate rt e c).violations.filter
      (fun v => decide (mn ∈ v.violated_metrics))) = [] := by
  have h1 : StandardsEngine.checkMetric rt c m
      = (true, 0, "Error checking " ++ m.name) := by
    simp [StandardsEngine.checkMetric, he]
  refine ⟨h1, by simp [MetricsValidator.defaultValidate, he], ?_⟩
  rw [List.filter_eq_nil_iff]
  intro v hv
  rw [StandardsEngine.moderate_violations,
    StandardsEngine.moderateAccum_violations rt e.metrics c e.standards] at hv
  obtain ⟨p, _, hvp⟩ := List.mem_flatMap.mp hv
  by_cases hen : p.2.enabled = true
  · rw [if_pos hen] at hvp
    have hvm := StandardsEngine.mem_checkStandard_violated hvp
    simp only [decide_eq_true_eq]
    rw [hvm]
    exact StandardsEngine.not_mem_violatedMetricNames p.2 hmn
      (by rw [h1])
  · rw [if_neg hen] at hvp
    simp at hvp

/-- C4 witness: the fail-open behaviour at a concrete always-raising
runtime. -/
theorem c4_witness :
    StandardsEngine.checkMetric rtErr (mkComment "kill") mKill
      = (true, 0, "Error checking " ++ mKill.name) ∧
    MetricsValidator.defaultValidate rtErr (mkComment "kill") mKill
      = (true, 0, "Error validating \x27" ++ mKill.name ++ "\x27: " ++ "boom") ∧
    ((StandardsEngine.moderate rtErr eDemo (mkComment "kill")).violations.filter
      (fun v => decide ("m" ∈ v.violated_metrics))) = [] :=
  c4_theorem rtErr (mkComment "kill") mKill "boom" eDemo "m" rfl
    (by simp [eDemo, dictGet])

/-- C5: whenever an enabled registered metric referenced by an enabled
standard fails, `moderate` reports exactly one violation for that standard;
its violated-metric list is the engine-collected list, its confidence is
the maximum configured threshold among those violated metrics, and its
severity follows the fixed confidence bands of the spec. -/
theorem c5_theorem (rt : PyRuntime) (e : StandardsEngine) (c : Comment)
    (sname : String) (s : Standard) (mn : String) (m : Metric)
    (hs : dictGet e.standards sname = some s)
    (hen : s.enabled = true)
    (hkeys : (e.standards.map Prod.fst).Nodup)
    (hnames : ∀ p ∈ e.standards, p.2.name = p.1)
    (hmn : mn ∈ s.metrics)
    (hm : dictGet e.metrics mn = some m)
    (hmen : m.enabled = true)
    (hfail : (StandardsEngine.checkMetric rt c m).1 = false) :
    uniqueViolationSpec rt e c s := by
  have hvm : mn ∈ StandardsEngine.violatedMetricNames rt e.metrics c s :=
    StandardsEngine.mem_violatedMetricNames hmn hm hmen hfail
  have hthm : m.threshold ∈ StandardsEngine.thresholdsOf e.metrics
      (StandardsEngine.violatedMetricNames rt e.metrics c s) :=
    StandardsEngine.thresholdsOf_mem hvm hm
  rcases StandardsEngine.checkStandard_cases rt e.metrics c s with
    ⟨hnil, _⟩ | ⟨t, ts, hts, hcs⟩
  · rw [hnil] at hthm
    simp at hthm
  · rw [uniqueViolationSpec]
    refine ⟨Violation.mk s.name s.description
        (StandardsEngine.determineSeverity (ts.foldl max t) s)
        (ts.foldl max t)
        (StandardsEngine.violatedMetricNames rt e.metrics c s)
        ("Comment violates " ++ s.name ++ " standard based on metrics: "
          ++ String.intercalate ", "
            (StandardsEngine.violatedMetricNames rt e.metrics c s))
        none, ?_, rfl, ?_, ?_, ?_⟩
    · rw [StandardsEngine.moderate_violations,
        StandardsEngine.moderateAccum_violations rt e.metrics c e.standards,
        StandardsEngine.filter_flatMap_violations rt e.metrics c e.standards
          sname s hs hkeys hnames hen]
      exact hcs
    · show ts.foldl max t ∈ StandardsEngine.thresholdsOf e.metrics
        (StandardsEngine.violatedMetricNames rt e.metrics c s)
      rw [hts]
      rcases foldl_max_mem ts t with h | h
      · rw [h]
        exact List.mem_cons_self _ _
      · exact List.mem_cons_of_mem _ h
    · intro x hx
      show x ≤ ts.foldl max t
      rw [hts] at hx
      rcases List.mem_cons.mp hx with h | h
      · exact h ▸ le_foldl_max ts t
      · exact mem_le_foldl_max ts t x h
    · exact StandardsEngine.determineSeverity_eq_bands (ts.foldl max t) s

/-- C5 witness: the unique-violation property at a concrete single-standard
engine whose metric fails. -/
theorem c5_witness : uniqueViolationSpec rtLit eDemo (mkComment "kill") sDemo :=
  c5_theorem rtLit eDemo (mkComment "kill") "s" sDemo "m" mKill
    (by simp [eDemo, dictGet]) rfl (by simp [eDemo])
    (by intro p hp; simp [eDemo] at hp; simp [hp, sDemo])
    (by simp [sDemo]) (by simp [eDemo, dictGet]) rfl
    (by simp [StandardsEngine.checkMetric, mKill, rtLit, mkComment,
      (by decide : strLower "kill" = "kill"),
      (by decide : wordCount "kill" = 1),
      (by norm_num : ¬((1:ℚ) < (0.5:ℚ)))])

/-- C7 counterexample: the engine-internal evaluator does not cap the
badness score at 1.0 -- pattern `a` on the one-word text `aaaa` yields the
returned score 4, while the capped formula of the claim yields 1. -/
theorem c7_counterexample :
    (StandardsEngine.checkMetric rtLit (mkComment "aaaa") mLitA).2.1 = 4 ∧
    min ((4 : ℚ) /
        (max 1 (wordCount (strLower (mkComment "aaaa").text)) : ℚ)) 1 = 1 ∧
    (4 : ℚ) ≠ 1 := by
  refine ⟨?_, ?_, by norm_num⟩
  · simp [StandardsEngine.checkMetric, mLitA, rtLit, mkComment,
      (by decide : strLower "aaaa" = "aaaa"),
      (by decide : wordCount "aaaa" = 1)]
  · simp [mkComment, (by decide : strLower "aaaa" = "aaaa"),
      (by decide : wordCount "aaaa" = 1), min_def]

/-- C7 (amended): with zero matches both evaluators pass with score 0; with
matches, the engine-internal check returns the uncapped density
`match_count / max(1, word_count)` while the validator default returns the
capped `min(match_count / word_count, 1)` (1 when the text has no words);
each passes iff its score is below the threshold, and the two scores agree
whenever the match count does not exceed the word count. -/
theorem c7_amended_theorem (rt : PyRuntime) (c : Comment) (m : Metric)
    (l : List String)
    (hok : rt.findall m.check_pattern (strLower c.text) = Except.ok l) :
    (l = [] →
      (StandardsEngine.checkMetric rt c m).1 = true ∧
      (StandardsEngine.checkMetric rt c m).2.1 = 0 ∧
      (MetricsValidator.defaultValidate rt c m).1 = true ∧
      (MetricsValidator.defaultValidate rt c m).2.1 = 0) ∧
    (l ≠ [] →
      (StandardsEngine.checkMetric rt c m).2.1
        = (l.length : ℚ) / (max 1 (wordCount (strLower c.text)) : ℚ) ∧
      ((StandardsEngine.checkMetric rt c m).1 = true ↔
        (l.length : ℚ) / (max 1 (wordCount (strLower c.text)) : ℚ)
          < m.threshold) ∧
      (MetricsValidator.defaultValidate rt c m).2.1
        = (if 0 < wordCount (strLower c.text) then
            min ((l.length : ℚ) / (wordCount (strLower c.text) : ℚ)) 1
          else 1) ∧
      ((MetricsValidator.defaultValidate rt c m).1 = true ↔
        (MetricsValidator.defaultValidate rt c m).2.1 < m.threshold) ∧
      (l.length ≤ wordCount (strLower c.text) →
        (StandardsEngine.checkMetric rt c m).2.1
          = (MetricsValidator.defaultValidate rt c m).2.1)) := by
  constructor
  · intro hl
    subst hl
    refine ⟨?_, ?_, ?_, ?_⟩ <;>
      simp [StandardsEngine.checkMetric, MetricsValidator.defaultValidate, hok]
  · intro hl
    have hne : l.isEmpty = false := by
      cases l
      · exact absurd rfl hl
      · rfl
    have hcm : StandardsEngine.checkMetric rt c m
        = (if (l.length : ℚ) / (max 1 (wordCount (strLower c.text)) : ℚ)
              < m.threshold then true else false,
           (l.length : ℚ) / (max 1 (wordCount (strLower c.text)) : ℚ),
           "Found " ++ toString l.length ++ " matches for " ++ m.name
             ++ " pattern") := by
      simp [StandardsEngine.checkMetric, hok, hne]
    have hcs : MetricsValidator.calculateScore l (strLower c.text)
        = (if 0 < wordCount (strLower c.text) then
            min ((l.length : ℚ) / (wordCount (strLower c.text) : ℚ)) 1
          else 1) := by
      simp [MetricsValidator.calculateScore, hne]
    have hdv : MetricsValidator.defaultValidate rt c m
        = (if MetricsValidator.calculateScore l (strLower c.text)
              < m.threshold then true else false,
           MetricsValidator.calculateScore l (strLower c.text),
           MetricsValidator.generateReasoning rt l m
             (MetricsValidator.calculateScore l (strLower c.text))) := by
      simp [MetricsValidator.defaultValidate, hok, hne]
    refine ⟨by rw [hcm], ?_, by rw [hdv, hcs], ?_, ?_⟩
    · rw [hcm]
      by_cases hp : (l.length : ℚ) /
          (max 1 (wordCount (strLower c.text)) : ℚ) < m.threshold <;>
        simp [hp]
    · rw [hdv]
      by_cases hp : MetricsValidator.calculateScore l (strLower c.text)
          < m.threshold <;>
        simp [hp]
    · intro hle
      have hlen : 0 < l.length := List.length_pos.mpr hl
      have hwc : 0 < wordCount (strLower c.text) := lt_of_lt_of_le hlen hle
      have h1le : (1 : ℚ) ≤ (wordCount (strLower c.text) : ℚ) := by
        exact_mod_cast hwc
      have hdivle : (l.length : ℚ) / (wordCount (strLower c.text) : ℚ) ≤ 1 := by
        rw [div_le_one (by exact_mod_cast hwc)]
        exact_mod_cast hle
      simp only [hcm, hdv, hcs]
      rw [if_pos hwc, max_eq_right h1le, min_eq_left hdivle]

/-- C7 witness: the amended two-evaluator description at the concrete
four-match input. -/
theorem c7_amended_witness :
    (["a", "a", "a", "a"] = ([] : List String) →
      (StandardsEngine.checkMetric rtLit (mkComment "aaaa") mLitA).1 = true ∧
      (StandardsEngine.checkMetric rtLit (mkComment "aaaa") mLitA).2.1 = 0 ∧
      (MetricsValidator.defaultValidate rtLit (mkComment "aaaa") mLitA).1
        = true ∧
      (MetricsValidator.defaultValidate rtLit (mkComment "aaaa") mLitA).2.1
        = 0) ∧
    (["a", "a", "a", "a"] ≠ ([] : List String) →
      (StandardsEngine.checkMetric rtLit (mkComment "aaaa") mLitA).2.1
        = ((["a", "a", "a", "a"] : List String).length : ℚ) /
          (max 1 (wordCount (strLower (mkComment "aaaa").text)) : ℚ) ∧
      ((StandardsEngine.checkMetric rtLit (mkComment "aaaa") mLitA).1 = true ↔
        ((["a", "a", "a", "a"] : List String).length : ℚ) /
          (max 1 (wordCount (strLower (mkComment "aaaa").text)) : ℚ)
          < mLitA.threshold) ∧
      (MetricsValidator.defaultValidate rtLit (mkComment "aaaa") mLitA).2.1
        = (if 0 < wordCount (strLower (mkComment "aaaa").text) then
            min (((["a", "a", "a", "a"] : List String).length : ℚ) /
              (wordCount (strLower (mkComment "aaaa").text) : ℚ)) 1
          else 1) ∧
      ((MetricsValidator.defaultValidate rtLit (mkComment "aaaa") mLitA).1
          = true ↔
        (MetricsValidator.defaultValidate rtLit (mkComment "aaaa") mLitA).2.1
          < mLitA.threshold) ∧
      ((["a", "a", "a", "a"] : List String).length
          ≤ wordCount (strLower (mkComment "aaaa").text) →
        (StandardsEngine.checkMetric rtLit (mkComment "aaaa") mLitA).2.1
          = (MetricsValidator.defaultValidate rtLit
              (mkComment "aaaa") mLitA).2.1)) :=
  c7_amended_theorem rtLit (mkComment "aaaa") mLitA ["a", "a", "a", "a"]
    (by simp [rtLit, mLitA, mkComment, (by decide : strLower "aaaa" = "aaaa")])

/-- C8: for registries whose metric thresholds lie in the unit interval and
whose standard weights are positive, the reported score and confidence both
lie in the unit interval. -/
theorem c8_theorem (rt : PyRuntime) (e : StandardsEngine) (c : Comment)
    (hth : ∀ p ∈ e.metrics, 0 ≤ p.2.threshold ∧ p.2.threshold ≤ 1)
    (hw : ∀ p ∈ e.standards, 0 < p.2.weight) :
    0 ≤ (StandardsEngine.moderate rt e c).score ∧
    (StandardsEngine.moderate rt e c).score ≤ 1 ∧
    0 ≤ (StandardsEngine.moderate rt e c).confidence ∧
    (StandardsEngine.moderate rt e c).confidence ≤ 1 := by
  obtain ⟨hv, hs, hsw⟩ :=
    StandardsEngine.moderateAccum_bounds rt e.metrics c hth e.standards hw
  have hscore : 0 ≤ (StandardsEngine.moderate rt e c).score ∧
      (StandardsEngine.moderate rt e c).score ≤ 1 := by
    rw [StandardsEngine.moderate_score]
    by_cases h : 0 < (StandardsEngine.moderateAccum rt e.metrics c
        e.standards).2.2
    · rw [if_pos h]
      exact ⟨div_nonneg hs (le_of_lt h), (div_le_one h).mpr hsw⟩
    · rw [if_neg h]
      norm_num
  refine ⟨hscore.1, hscore.2, ?_, ?_⟩
  · rw [StandardsEngine.moderate_confidence]
    exact (StandardsEngine.calculateConfidence_bounds _ _
      (by rw [StandardsEngine.moderate_violations]; exact hv)).1
  · rw [StandardsEngine.moderate_confidence]
    exact (StandardsEngine.calculateConfidence_bounds _ _
      (by rw [StandardsEngine.moderate_violations]; exact hv)).2

/-- C8 witness: the unit-interval bounds at a concrete engine. -/
theorem c8_witness :
    0 ≤ (StandardsEngine.moderate rtLit eDemo (mkComment "kill")).score ∧
    (StandardsEngine.moderate rtLit eDemo (mkComment "kill")).score ≤ 1 ∧
    0 ≤ (StandardsEngine.moderate rtLit eDemo (mkComment "kill")).confidence ∧
    (StandardsEngine.moderate rtLit eDemo (mkComment "kill")).confidence ≤ 1 :=
  c8_theorem rtLit eDemo (mkComment "kill")
    (by intro p hp; simp [eDemo] at hp; rw [hp]; constructor <;>
      norm_num [mKill])
    (by intro p hp; simp [eDemo] at hp; rw [hp]; norm_num [sDemo])

end Moderation
